import Mathlib

/-!
Verification of the vCard / QR generator app (`app.py`).

The Python helpers are embedded shallowly:
* strings are Lean `String` (a wrapper around `List Char`, matching Python
  code points);
* `str.strip` / `str.lower` / `re.sub` are modelled character-wise on
  `List Char` (ASCII-faithful; the claims only concern ASCII behaviour);
* `"sep".join(lst)` is modelled by the structurally recursive `pyJoin`;
* Python truthiness of a string `s` is `s ≠ ""`, of a list `l` is `l ≠ []`;
* `base64.b64encode` is the standard RFC 4648 encoding of a byte list
  (bytes as `Nat` below 256).
-/

/-- Whitespace class used by `str.strip` and `re.sub(r"\s+", ...)`
(ASCII part; non-ASCII whitespace never survives the later filters). -/
def isPySpace (c : Char) : Bool :=
  c = ' ' || c = '\t' || c = '\n' || c = '\r' || c = '\x0B' || c = '\x0C'

/-- Python `str.strip()`: drop leading and trailing whitespace. -/
def pyStrip (s : String) : String :=
  ⟨((s.data.dropWhile isPySpace).reverse.dropWhile isPySpace).reverse⟩

/-- Python `str.lower()` on one character (ASCII range). -/
def pyLowerChar (c : Char) : Char :=
  if 'A' ≤ c ∧ c ≤ 'Z' then Char.ofNat (c.toNat + 32) else c

/-- The character class kept by `re.sub(r"[^a-z0-9_.-]", "", s)`. -/
def allowedChar (c : Char) : Bool :=
  decide (('a' ≤ c ∧ c ≤ 'z') ∨ ('0' ≤ c ∧ c ≤ '9') ∨ c = '_' ∨ c = '.' ∨ c = '-')

/-- Worker for `re.sub(r"\s+", "_", s)`: the flag records whether we are
inside a whitespace run that has already produced its underscore. -/
def collapseWSAux : Bool → List Char → List Char
  | _, [] => []
  | inRun, c :: cs =>
    if isPySpace c then
      if inRun then collapseWSAux true cs else '_' :: collapseWSAux true cs
    else c :: collapseWSAux false cs

/-- `re.sub(r"\s+", "_", s)`: each maximal whitespace run becomes one `_`. -/
def collapseWS (l : List Char) : List Char := collapseWSAux false l

/-- `sanitize_filename` from `app.py`:
`s = (s or "").strip().lower()`, collapse whitespace to `_`,
drop characters outside `[a-z0-9_.-]`, and fall back to `"file"`. -/
def sanitize_filename (s : String) : String :=
  let s1 := pyStrip s
  let s2 : String := ⟨s1.data.map pyLowerChar⟩
  let s3 : String := ⟨collapseWS s2.data⟩
  let s4 : String := ⟨s3.data.filter allowedChar⟩
  if s4 = "" then "file" else s4

/-- Python `sep.join(lst)`. -/
def pyJoin (sep : String) : List String → String
  | [] => ""
  | [x] => x
  | x :: y :: ys => x ++ sep ++ pyJoin sep (y :: ys)

/-- One step of `notes.replace("\\", "\\\\")` (character-wise, the pattern
is a single character so `str.replace` is a per-character expansion). -/
def escChar1 (c : Char) : List Char := if c = '\\' then ['\\', '\\'] else [c]

/-- One step of `.replace("\n", "\\n")`. -/
def escChar2 (c : Char) : List Char := if c = '\n' then ['\\', 'n'] else [c]

/-- The vCard 4.0 NOTE escaping from `build_vcard_core`:
`notes.replace("\\", "\\\\").replace("\n", "\\n")`. -/
def escapeNotes (s : String) : String :=
  ⟨(s.data.flatMap escChar1).flatMap escChar2⟩

/-- `if cond: lines.append(l)` — the conditional one-line segment. -/
def optLine (c : Prop) [Decidable c] (l : String) : List String :=
  if c then [l] else []

/-- The list `lines` built by `build_vcard_core` in `app.py`, in source
order.  The `version == "4.0"` branch and the `else` (3.0) branch are
transcribed clause by clause; `if field:` is `field ≠ ""`. -/
def vcardLines (version en_first en_last org en_title phone mobile email
    website notes ar_first ar_last ar_title : String) : List String :=
  if version = "4.0" then
    ["BEGIN:VCARD", "VERSION:4.0",
     "N:" ++ en_last ++ ";" ++ en_first ++ ";;;",
     "FN:" ++ pyStrip (en_first ++ " " ++ en_last)]
    ++ optLine (org ≠ "") ("ORG:" ++ org)
    ++ optLine (en_title ≠ "") ("TITLE:" ++ en_title)
    ++ optLine (phone ≠ "") ("TEL;TYPE=work,voice;VALUE=uri:tel:" ++ phone)
    ++ optLine (mobile ≠ "") ("TEL;TYPE=cell,voice;VALUE=uri:tel:" ++ mobile)
    ++ optLine (email ≠ "") ("EMAIL:" ++ email)
    ++ optLine (website ≠ "") ("URL:" ++ website)
    ++ (if ar_first ≠ "" ∨ ar_last ≠ "" then
          optLine (pyStrip (ar_first ++ " " ++ ar_last) ≠ "")
            ("FN;LANGUAGE=ar:" ++ pyStrip (ar_first ++ " " ++ ar_last))
        else [])
    ++ optLine (ar_title ≠ "") ("TITLE;LANGUAGE=ar:" ++ ar_title)
    ++ optLine (notes ≠ "") ("NOTE:" ++ escapeNotes notes)
    ++ ["END:VCARD"]
  else
    ["BEGIN:VCARD", "VERSION:3.0",
     "N:" ++ en_last ++ ";" ++ en_first ++ ";;;",
     "FN:" ++ pyStrip (en_first ++ " " ++ en_last)]
    ++ optLine (org ≠ "") ("ORG:" ++ org)
    ++ optLine (en_title ≠ "") ("TITLE:" ++ en_title)
    ++ optLine (phone ≠ "") ("TEL;TYPE=WORK,VOICE:" ++ phone)
    ++ optLine (mobile ≠ "") ("TEL;TYPE=CELL,VOICE:" ++ mobile)
    ++ optLine (email ≠ "") ("EMAIL;TYPE=PREF,INTERNET:" ++ email)
    ++ optLine (website ≠ "") ("URL:" ++ website)
    ++ (let an := optLine (ar_first ≠ "" ∨ ar_last ≠ "")
                    (pyStrip ("الاسم: " ++ ar_first ++ " " ++ ar_last))
                  ++ optLine (ar_title ≠ "") ("المسمى: " ++ ar_title)
        optLine (an ≠ []) ("NOTE:" ++ pyJoin " | " an))
    ++ optLine (notes ≠ "") ("NOTE:" ++ notes)
    ++ ["END:VCARD"]

/-- `build_vcard_core` from `app.py`: the joined text `"\n".join(lines)`. -/
def build_vcard_core (version en_first en_last org en_title phone mobile email
    website notes ar_first ar_last ar_title : String) : String :=
  pyJoin "\n" (vcardLines version en_first en_last org en_title phone mobile
    email website notes ar_first ar_last ar_title)

/-- The property tag of a vCard line: its characters up to the first `:`
or `;` (the part a reader uses to recognise the line kind). -/
def tagChars : List Char → List Char
  | [] => []
  | c :: cs => if c = ':' ∨ c = ';' then [] else c :: tagChars cs

/-- Tag of a line, as a string. -/
def tagOf (s : String) : String := ⟨tagChars s.data⟩

/-- The full tag order of the 4.0 branch with every field present. -/
def vcardTagOrder4 : List String :=
  ["BEGIN", "VERSION", "N", "FN", "ORG", "TITLE", "TEL", "TEL",
   "EMAIL", "URL", "FN", "TITLE", "NOTE", "END"]

/-- The full tag order of the 3.0 branch with every field present. -/
def vcardTagOrder3 : List String :=
  ["BEGIN", "VERSION", "N", "FN", "ORG", "TITLE", "TEL", "TEL",
   "EMAIL", "URL", "NOTE", "NOTE", "END"]

/-- `True` when the two strings differ at some position both of them have. -/
def strDiffB (p q : String) : Bool :=
  (p.data.zip q.data).any fun ab => ab.1 != ab.2

/-- Base64 alphabet of RFC 4648 (what `base64.b64encode` uses). -/
def b64Chars : List Char :=
  "ABCDEFGHIJKLMNOPQRSTUVWXYZabcdefghijklmnopqrstuvwxyz0123456789+/".data

/-- Digit lookup into the base64 alphabet. -/
def b64Digit (n : Nat) : Char := b64Chars.getD n 'A'

/-- `base64.b64encode` on a byte list (bytes are `Nat` below 256),
three bytes to four digits with `=` padding. -/
def b64encode : List Nat → List Char
  | [] => []
  | [a] => [b64Digit (a / 4 % 64), b64Digit (a % 4 * 16), '=', '=']
  | [a, b] => [b64Digit (a / 4 % 64), b64Digit (a % 4 * 16 + b / 16),
               b64Digit (b % 16 * 4), '=']
  | a :: b :: c :: rest =>
    b64Digit (a / 4 % 64) :: b64Digit (a % 4 * 16 + b / 16) ::
    b64Digit (b % 16 * 4 + c / 64) :: b64Digit (c % 64) :: b64encode rest

/-- `short_data_uri` from `app.py`: build the data URI and return it only
when its length is at most `max_len`. -/
def short_data_uri (b : List Nat) (mediatype : String) (max_len : Nat) :
    Option String :=
  let uri := "data:" ++ mediatype ++ ";base64," ++ (⟨b64encode b⟩ : String)
  if uri.length ≤ max_len then some uri else none

/-- One spreadsheet row of Batch Mode (the columns read by the loop). -/
structure Row where
  firstName : String
  lastName : String
  organization : String
  title : String
  phone : String
  mobile : String
  email : String
  website : String
  notes : String

/-- The per-row file stem: `sanitize_filename(f"{first}_{last}") or "contact"`
(with `first`/`last` already stripped, as in the loop). -/
def rowFname (r : Row) : String :=
  let f := sanitize_filename (pyStrip r.firstName ++ "_" ++ pyStrip r.lastName)
  if f = "" then "contact" else f

/-- The three archive paths the batch loop writes for one row
(`.vcf`, `_qr.png`, `_qr.svg`, all under the per-contact folder). -/
def rowBundle (folder : String) (r : Row) : List String :=
  [folder ++ "/" ++ rowFname r ++ "/" ++ rowFname r ++ ".vcf",
   folder ++ "/" ++ rowFname r ++ "/" ++ rowFname r ++ "_qr.png",
   folder ++ "/" ++ rowFname r ++ "/" ++ rowFname r ++ "_qr.svg"]

/-- All entries written into the batch ZIP: one bundle per row in order,
then `SUMMARY.txt`. -/
def batchZipEntries (folder : String) (rows : List Row) : List String :=
  rows.flatMap (rowBundle folder) ++ [folder ++ "/SUMMARY.txt"]

/-!  ## Generic string lemmas  -/

lemma append_ne_of_strDiffB (p q s t : String) (hd : strDiffB p q = true) :
    p ++ s ≠ q ++ t := by
  intro heq
  have hdata : p.data ++ s.data = q.data ++ t.data := by
    have h0 := congrArg String.data heq
    simpa [String.data_append] using h0
  obtain ⟨ab, hmem, hne⟩ := List.any_eq_true.mp hd
  obtain ⟨i, hi, hget⟩ := List.mem_iff_getElem.mp hmem
  have hip : i < p.data.length := by
    have h3 := hi; rw [List.length_zip] at h3; omega
  have hiq : i < q.data.length := by
    have h3 := hi; rw [List.length_zip] at h3
    have h4 : i < min p.data.length q.data.length := h3
    omega
  have hz : (p.data.zip q.data)[i] = (p.data[i], q.data[i]) := List.getElem_zip
  rw [hz] at hget
  rw [← hget] at hne
  have hne2 : p.data[i] ≠ q.data[i] := by simpa using hne
  apply hne2
  have h1 : (p.data ++ s.data)[i]? = p.data[i]? := List.getElem?_append_left hip
  have h2 : (q.data ++ t.data)[i]? = q.data[i]? := List.getElem?_append_left hiq
  have h3 : p.data[i]? = q.data[i]? := by rw [← h1, ← h2, hdata]
  rw [List.getElem?_eq_getElem hip, List.getElem?_eq_getElem hiq] at h3
  exact Option.some.inj h3

lemma strDiff_absurd {p s q t : String} (heq : p ++ s = q ++ t)
    (hd : strDiffB p q = true) : False :=
  append_ne_of_strDiffB p q s t hd heq

lemma strDiff_absurd_lit {p s a : String} (heq : p ++ s = a)
    (hd : strDiffB p a = true) : False :=
  append_ne_of_strDiffB p a s "" hd (by rw [heq, String.append_empty])

/-- The text has a line that begins with `tag`. -/
def hasLineLed (tag : String) (L : List String) : Prop :=
  ∃ r, (tag ++ r) ∈ L

/-- No line of the text begins with `tag`. -/
def noLineLed (tag : String) (L : List String) : Prop :=
  ∀ r, (tag ++ r) ∉ L

/-!  ## Claims  -/

/-- Claim C1: for every contact record and either version flag, if
organization, title, phone, mobile, email, website or notes is non-empty
then the generated vCard has a line beginning with that field's tag
(ORG, TITLE, TEL, TEL, EMAIL, URL, NOTE respectively). -/
theorem vcard_nonempty_field_has_line
    (version f l o t p m e w n arf arl art : String) :
    (o ≠ "" → hasLineLed "ORG" (vcardLines version f l o t p m e w n arf arl art)) ∧
    (t ≠ "" → hasLineLed "TITLE" (vcardLines version f l o t p m e w n arf arl art)) ∧
    (p ≠ "" → hasLineLed "TEL" (vcardLines version f l o t p m e w n arf arl art)) ∧
    (m ≠ "" → hasLineLed "TEL" (vcardLines version f l o t p m e w n arf arl art)) ∧
    (e ≠ "" → hasLineLed "EMAIL" (vcardLines version f l o t p m e w n arf arl art)) ∧
    (w ≠ "" → hasLineLed "URL" (vcardLines version f l o t p m e w n arf arl art)) ∧
    (n ≠ "" → hasLineLed "NOTE" (vcardLines version f l o t p m e w n arf arl art)) := by
  by_cases hv : version = "4.0"
  · refine ⟨fun h => ⟨":" ++ o, ?_⟩, fun h => ⟨":" ++ t, ?_⟩,
      fun h => ⟨";TYPE=work,voice;VALUE=uri:tel:" ++ p, ?_⟩,
      fun h => ⟨";TYPE=cell,voice;VALUE=uri:tel:" ++ m, ?_⟩,
      fun h => ⟨":" ++ e, ?_⟩, fun h => ⟨":" ++ w, ?_⟩,
      fun h => ⟨":" ++ escapeNotes n, ?_⟩⟩ <;>
      simp [vcardLines, hv, optLine, h, ← String.append_assoc]
  · refine ⟨fun h => ⟨":" ++ o, ?_⟩, fun h => ⟨":" ++ t, ?_⟩,
      fun h => ⟨";TYPE=WORK,VOICE:" ++ p, ?_⟩,
      fun h => ⟨";TYPE=CELL,VOICE:" ++ m, ?_⟩,
      fun h => ⟨";TYPE=PREF,INTERNET:" ++ e, ?_⟩, fun h => ⟨":" ++ w, ?_⟩,
      fun h => ⟨":" ++ n, ?_⟩⟩ <;>
      simp [vcardLines, hv, optLine, h, ← String.append_assoc]

/-- Witness for C1 at a concrete record (both versions). -/
theorem vcard_nonempty_field_has_line_wit :
    hasLineLed "ORG" (vcardLines "4.0" "Ali" "Saud" "Acme" "T" "P" "M" "E" "W" "XY" "" "" "") ∧
    hasLineLed "TEL" (vcardLines "3.0" "Ali" "Saud" "Acme" "T" "P" "M" "E" "W" "XY" "" "" "") := by
  constructor
  · exact (vcard_nonempty_field_has_line "4.0" "Ali" "Saud" "Acme" "T" "P" "M" "E"
      "W" "XY" "" "" "").1 (by decide)
  · exact (vcard_nonempty_field_has_line "3.0" "Ali" "Saud" "Acme" "T" "P" "M" "E"
      "W" "XY" "" "" "").2.2.1 (by decide)

/-- Claim C2, counterexample: with every field empty the output still
contains a line beginning with `N:` and a line beginning with `FN:`,
for both version flags. -/
theorem vcard_empty_names_still_name_lines :
    ("N:" ++ ";;;;") ∈ vcardLines "3.0" "" "" "" "" "" "" "" "" "" "" "" "" ∧
    ("FN:" ++ "") ∈ vcardLines "3.0" "" "" "" "" "" "" "" "" "" "" "" "" ∧
    ("N:" ++ ";;;;") ∈ vcardLines "4.0" "" "" "" "" "" "" "" "" "" "" "" "" ∧
    ("FN:" ++ "") ∈ vcardLines "4.0" "" "" "" "" "" "" "" "" "" "" "" "" := by
  decide

/-- Claim C2 as amended: every empty optional field yields no line with
its tag (for TITLE together with the Arabic title, for TEL together with
the other phone field, for NOTE — in the 3.0 branch — together with the
Arabic fields, which fall back into NOTE); but the `N:` and `FN:` lines
are always present, even when both name fields are empty. -/
theorem vcard_empty_field_no_line
    (version f l o t p m e w n arf arl art : String) :
    hasLineLed "N:" (vcardLines version f l o t p m e w n arf arl art) ∧
    hasLineLed "FN:" (vcardLines version f l o t p m e w n arf arl art) ∧
    (o = "" → noLineLed "ORG" (vcardLines version f l o t p m e w n arf arl art)) ∧
    (t = "" → art = "" → noLineLed "TITLE" (vcardLines version f l o t p m e w n arf arl art)) ∧
    (p = "" → m = "" → noLineLed "TEL" (vcardLines version f l o t p m e w n arf arl art)) ∧
    (e = "" → noLineLed "EMAIL" (vcardLines version f l o t p m e w n arf arl art)) ∧
    (w = "" → noLineLed "URL" (vcardLines version f l o t p m e w n arf arl art)) ∧
    (version = "4.0" → n = "" → noLineLed "NOTE" (vcardLines version f l o t p m e w n arf arl art)) ∧
    (n = "" → arf = "" → arl = "" → art = "" →
      noLineLed "NOTE" (vcardLines version f l o t p m e w n arf arl art)) := by
  refine ⟨?_, ?_, ?_, ?_, ?_, ?_, ?_, ?_, ?_⟩
  · by_cases hv : version = "4.0" <;>
      exact ⟨l ++ (";" ++ (f ++ ";;;")), by simp [vcardLines, hv, ← String.append_assoc]⟩
  · by_cases hv : version = "4.0" <;>
      exact ⟨pyStrip (f ++ " " ++ l), by simp [vcardLines, hv]⟩
  · rintro rfl r hmem
    by_cases hv : version = "4.0" <;>
      simp [vcardLines, hv, optLine, String.append_assoc] at hmem <;>
      casesm* _ ∨ _, _ ∧ _ <;>
        first
          | exact strDiff_absurd (by assumption) (by decide)
          | exact strDiff_absurd_lit (by assumption) (by decide)
  · rintro rfl rfl r hmem
    by_cases hv : version = "4.0" <;>
      simp [vcardLines, hv, optLine, String.append_assoc] at hmem <;>
      casesm* _ ∨ _, _ ∧ _ <;>
        first
          | exact strDiff_absurd (by assumption) (by decide)
          | exact strDiff_absurd_lit (by assumption) (by decide)
  · rintro rfl rfl r hmem
    by_cases hv : version = "4.0" <;>
      simp [vcardLines, hv, optLine, String.append_assoc] at hmem <;>
      casesm* _ ∨ _, _ ∧ _ <;>
        first
          | exact strDiff_absurd (by assumption) (by decide)
          | exact strDiff_absurd_lit (by assumption) (by decide)
  · rintro rfl r hmem
    by_cases hv : version = "4.0" <;>
      simp [vcardLines, hv, optLine, String.append_assoc] at hmem <;>
      casesm* _ ∨ _, _ ∧ _ <;>
        first
          | exact strDiff_absurd (by assumption) (by decide)
          | exact strDiff_absurd_lit (by assumption) (by decide)
  · rintro rfl r hmem
    by_cases hv : version = "4.0" <;>
      simp [vcardLines, hv, optLine, String.append_assoc] at hmem <;>
      casesm* _ ∨ _, _ ∧ _ <;>
        first
          | exact strDiff_absurd (by assumption) (by decide)
          | exact strDiff_absurd_lit (by assumption) (by decide)
  · rintro rfl rfl r hmem
    simp [vcardLines, optLine, String.append_assoc] at hmem
    casesm* _ ∨ _, _ ∧ _ <;>
      first
        | exact strDiff_absurd (by assumption) (by decide)
        | exact strDiff_absurd_lit (by assumption) (by decide)
  · rintro rfl rfl rfl rfl r hmem
    by_cases hv : version = "4.0" <;>
      simp [vcardLines, hv, optLine, String.append_assoc] at hmem <;>
      casesm* _ ∨ _, _ ∧ _ <;>
        first
          | exact strDiff_absurd (by assumption) (by decide)
          | exact strDiff_absurd_lit (by assumption) (by decide)

/-- Witness for C2 as amended: a concrete empty-org record has no ORG
line, and no TEL line when both phone fields are empty. -/
theorem vcard_empty_field_no_line_wit :
    ("ORG" ++ ":Acme") ∉ vcardLines "3.0" "Ali" "Saud" "" "T" "" "" "E" "W" "XY" "" "" "" ∧
    ("TEL" ++ ":123") ∉ vcardLines "3.0" "Ali" "Saud" "" "T" "" "" "E" "W" "XY" "" "" "" := by
  constructor
  · exact (vcard_empty_field_no_line "3.0" "Ali" "Saud" "" "T" "" "" "E" "W" "XY"
      "" "" "").2.2.1 rfl ":Acme"
  · exact (vcard_empty_field_no_line "3.0" "Ali" "Saud" "" "T" "" "" "E" "W" "XY"
      "" "" "").2.2.2.2.1 rfl rfl ":123"

/-!  ## Join structure (for the envelope claim)  -/

lemma pyJoin_cons₂ (sep a b : String) (l : List String) :
    pyJoin sep (a :: b :: l) = a ++ sep ++ pyJoin sep (b :: l) := rfl

lemma pyJoin_append_last (sep b : String) (l : List String) (h : l ≠ []) :
    pyJoin sep (l ++ [b]) = pyJoin sep l ++ sep ++ b := by
  induction l with
  | nil => exact absurd rfl h
  | cons x xs ih =>
    cases xs with
    | nil => rfl
    | cons y ys =>
      simp only [List.cons_append] at ih ⊢
      rw [pyJoin_cons₂, pyJoin_cons₂, ih (by simp)]
      simp [String.append_assoc]

lemma pyJoin_envelope (a v x y b : String) (mids : List String) :
    ∃ mid, pyJoin "\n" (a :: v :: x :: y :: (mids ++ [b])) =
      a ++ "\n" ++ v ++ "\n" ++ mid ++ "\n" ++ b := by
  refine ⟨pyJoin "\n" (x :: y :: mids), ?_⟩
  have h1 : x :: y :: (mids ++ [b]) = (x :: y :: mids) ++ [b] := by simp
  rw [pyJoin_cons₂, pyJoin_cons₂, h1, pyJoin_append_last _ _ _ (by simp)]
  simp [String.append_assoc]

/-- Claim C4: for every record and version flag, `build_vcard_core` is a
newline-joined block whose first line is `BEGIN:VCARD`, whose second line
is `VERSION:4.0` exactly when the flag is `"4.0"` and `VERSION:3.0`
otherwise, and whose last line is `END:VCARD`. -/
theorem vcard_envelope (version f l o t p m e w n arf arl art : String) :
    ∃ mid, build_vcard_core version f l o t p m e w n arf arl art =
      "BEGIN:VCARD" ++ "\n" ++
      (if version = "4.0" then "VERSION:4.0" else "VERSION:3.0") ++ "\n" ++
      mid ++ "\n" ++ "END:VCARD" := by
  by_cases hv : version = "4.0"
  · obtain ⟨mid, hm⟩ := pyJoin_envelope "BEGIN:VCARD" "VERSION:4.0"
      ("N:" ++ l ++ ";" ++ f ++ ";;;") ("FN:" ++ pyStrip (f ++ " " ++ l))
      "END:VCARD"
      (optLine (o ≠ "") ("ORG:" ++ o)
        ++ optLine (t ≠ "") ("TITLE:" ++ t)
        ++ optLine (p ≠ "") ("TEL;TYPE=work,voice;VALUE=uri:tel:" ++ p)
        ++ optLine (m ≠ "") ("TEL;TYPE=cell,voice;VALUE=uri:tel:" ++ m)
        ++ optLine (e ≠ "") ("EMAIL:" ++ e)
        ++ optLine (w ≠ "") ("URL:" ++ w)
        ++ (if arf ≠ "" ∨ arl ≠ "" then
              optLine (pyStrip (arf ++ " " ++ arl) ≠ "")
                ("FN;LANGUAGE=ar:" ++ pyStrip (arf ++ " " ++ arl))
            else [])
        ++ optLine (art ≠ "") ("TITLE;LANGUAGE=ar:" ++ art)
        ++ optLine (n ≠ "") ("NOTE:" ++ escapeNotes n))
    refine ⟨mid, ?_⟩
    rw [if_pos hv]
    rw [← hm]
    unfold build_vcard_core
    congr 1
    simp [vcardLines, hv, List.append_assoc]
  · obtain ⟨mid, hm⟩ := pyJoin_envelope "BEGIN:VCARD" "VERSION:3.0"
      ("N:" ++ l ++ ";" ++ f ++ ";;;") ("FN:" ++ pyStrip (f ++ " " ++ l))
      "END:VCARD"
      (optLine (o ≠ "") ("ORG:" ++ o)
        ++ optLine (t ≠ "") ("TITLE:" ++ t)
        ++ optLine (p ≠ "") ("TEL;TYPE=WORK,VOICE:" ++ p)
        ++ optLine (m ≠ "") ("TEL;TYPE=CELL,VOICE:" ++ m)
        ++ optLine (e ≠ "") ("EMAIL;TYPE=PREF,INTERNET:" ++ e)
        ++ optLine (w ≠ "") ("URL:" ++ w)
        ++ (let an := optLine (arf ≠ "" ∨ arl ≠ "")
                        (pyStrip ("الاسم: " ++ arf ++ " " ++ arl))
                      ++ optLine (art ≠ "") ("المسمى: " ++ art)
            optLine (an ≠ []) ("NOTE:" ++ pyJoin " | " an))
        ++ optLine (n ≠ "") ("NOTE:" ++ n))
    refine ⟨mid, ?_⟩
    rw [if_neg hv]
    rw [← hm]
    unfold build_vcard_core
    congr 1
    simp [vcardLines, hv, List.append_assoc]

/-!  ## Tag order (for the fixed-order claim)  -/

lemma tagChars_append_of_stop (a b : List Char)
    (h : (a.any fun c => c = ':' || c = ';') = true) :
    tagChars (a ++ b) = tagChars a := by
  induction a with
  | nil => simp at h
  | cons c cs ih =>
    by_cases hc : c = ':' ∨ c = ';'
    · simp [tagChars, hc]
    · have h2 : (cs.any fun d => d = ':' || d = ';') = true := by
        simp only [List.any_cons, Bool.or_eq_true, decide_eq_true_eq] at h
        rcases h with h | h
        · exact absurd (by tauto) hc
        · simpa using h
      simp [tagChars, hc, ih h2]

lemma tagOf_append_stop (p s : String)
    (h : (p.data.any fun c => c = ':' || c = ';') = true) :
    tagOf (p ++ s) = tagOf p := by
  unfold tagOf
  exact congrArg _ (by rw [String.data_append]; exact tagChars_append_of_stop _ _ h)

lemma tagOf_N (s : String) : tagOf ("N:" ++ s) = "N" := by
  rw [tagOf_append_stop _ _ (by decide)]; decide

lemma tagOf_FN (s : String) : tagOf ("FN:" ++ s) = "FN" := by
  rw [tagOf_append_stop _ _ (by decide)]; decide

lemma tagOf_FN_ar (s : String) : tagOf ("FN;LANGUAGE=ar:" ++ s) = "FN" := by
  rw [tagOf_append_stop _ _ (by decide)]; decide

lemma tagOf_ORG (s : String) : tagOf ("ORG:" ++ s) = "ORG" := by
  rw [tagOf_append_stop _ _ (by decide)]; decide

lemma tagOf_TITLE (s : String) : tagOf ("TITLE:" ++ s) = "TITLE" := by
  rw [tagOf_append_stop _ _ (by decide)]; decide

lemma tagOf_TITLE_ar (s : String) : tagOf ("TITLE;LANGUAGE=ar:" ++ s) = "TITLE" := by
  rw [tagOf_append_stop _ _ (by decide)]; decide

lemma tagOf_TEL_work4 (s : String) :
    tagOf ("TEL;TYPE=work,voice;VALUE=uri:tel:" ++ s) = "TEL" := by
  rw [tagOf_append_stop _ _ (by decide)]; decide

lemma tagOf_TEL_cell4 (s : String) :
    tagOf ("TEL;TYPE=cell,voice;VALUE=uri:tel:" ++ s) = "TEL" := by
  rw [tagOf_append_stop _ _ (by decide)]; decide

lemma tagOf_TEL_work3 (s : String) : tagOf ("TEL;TYPE=WORK,VOICE:" ++ s) = "TEL" := by
  rw [tagOf_append_stop _ _ (by decide)]; decide

lemma tagOf_TEL_cell3 (s : String) : tagOf ("TEL;TYPE=CELL,VOICE:" ++ s) = "TEL" := by
  rw [tagOf_append_stop _ _ (by decide)]; decide

lemma tagOf_EMAIL4 (s : String) : tagOf ("EMAIL:" ++ s) = "EMAIL" := by
  rw [tagOf_append_stop _ _ (by decide)]; decide

lemma tagOf_EMAIL3 (s : String) :
    tagOf ("EMAIL;TYPE=PREF,INTERNET:" ++ s) = "EMAIL" := by
  rw [tagOf_append_stop _ _ (by decide)]; decide

lemma tagOf_URL (s : String) : tagOf ("URL:" ++ s) = "URL" := by
  rw [tagOf_append_stop _ _ (by decide)]; decide

lemma tagOf_NOTE (s : String) : tagOf ("NOTE:" ++ s) = "NOTE" := by
  rw [tagOf_append_stop _ _ (by decide)]; decide

lemma map_optLine (g : String → String) (c : Prop) [Decidable c] (l : String) :
    (optLine c l).map g = if c then [g l] else [] := by
  unfold optLine
  split <;> simp

lemma ite_singleton_sublist {α} (c : Prop) [Decidable c] (x : α) :
    (if c then [x] else []).Sublist [x] := by
  split
  · exact List.Sublist.refl _
  · exact List.nil_sublist _

lemma tagOf_BEGIN : tagOf "BEGIN:VCARD" = "BEGIN" := by decide

lemma tagOf_VERSION4 : tagOf "VERSION:4.0" = "VERSION" := by decide

lemma tagOf_VERSION3 : tagOf "VERSION:3.0" = "VERSION" := by decide

lemma tagOf_END : tagOf "END:VCARD" = "END" := by decide

/-- Claim C5: the lines present in the output appear in a fixed relative
order — the sequence of their tags is a sublist of the fixed full order
(N, FN, ORG, TITLE, work TEL, cell TEL, EMAIL, URL, then the Arabic
variants and NOTE), independent of the supplied field values, and the
last line is always `END:VCARD`. -/
theorem vcard_tag_order (version f l o t p m e w n arf arl art : String) :
    ((vcardLines version f l o t p m e w n arf arl art).map tagOf).Sublist
      (if version = "4.0" then vcardTagOrder4 else vcardTagOrder3) ∧
    ∃ front, vcardLines version f l o t p m e w n arf arl art =
      front ++ ["END:VCARD"] := by
  constructor
  · by_cases hv : version = "4.0"
    · rw [if_pos hv]
      unfold vcardLines
      rw [if_pos hv]
      simp only [String.append_assoc, List.append_assoc, List.map_append,
        List.map_cons, List.map_nil, map_optLine, apply_ite (List.map tagOf),
        tagOf_BEGIN, tagOf_VERSION4, tagOf_END, tagOf_N, tagOf_FN, tagOf_FN_ar,
        tagOf_ORG, tagOf_TITLE, tagOf_TITLE_ar, tagOf_TEL_work4,
        tagOf_TEL_cell4, tagOf_EMAIL4, tagOf_URL, tagOf_NOTE]
      show List.Sublist _ (["BEGIN", "VERSION", "N", "FN"] ++
        (["ORG"] ++ (["TITLE"] ++ (["TEL"] ++ (["TEL"] ++ (["EMAIL"] ++
          (["URL"] ++ (["FN"] ++ (["TITLE"] ++ (["NOTE"] ++ ["END"]))))))))))
      refine List.Sublist.append (List.Sublist.refl _) ?_
      refine List.Sublist.append (ite_singleton_sublist _ _) ?_
      refine List.Sublist.append (ite_singleton_sublist _ _) ?_
      refine List.Sublist.append (ite_singleton_sublist _ _) ?_
      refine List.Sublist.append (ite_singleton_sublist _ _) ?_
      refine List.Sublist.append (ite_singleton_sublist _ _) ?_
      refine List.Sublist.append (ite_singleton_sublist _ _) ?_
      refine List.Sublist.append ?_ ?_
      · split
        · exact ite_singleton_sublist _ _
        · exact List.nil_sublist _
      refine List.Sublist.append (ite_singleton_sublist _ _) ?_
      exact List.Sublist.append (ite_singleton_sublist _ _) (List.Sublist.refl _)
    · rw [if_neg hv]
      unfold vcardLines
      rw [if_neg hv]
      simp only [String.append_assoc, List.append_assoc, List.map_append,
        List.map_cons, List.map_nil, map_optLine, apply_ite (List.map tagOf),
        tagOf_BEGIN, tagOf_VERSION3, tagOf_END, tagOf_N, tagOf_FN,
        tagOf_ORG, tagOf_TITLE, tagOf_TEL_work3,
        tagOf_TEL_cell3, tagOf_EMAIL3, tagOf_URL, tagOf_NOTE]
      show List.Sublist _ (["BEGIN", "VERSION", "N", "FN"] ++
        (["ORG"] ++ (["TITLE"] ++ (["TEL"] ++ (["TEL"] ++ (["EMAIL"] ++
          (["URL"] ++ (["NOTE"] ++ (["NOTE"] ++ ["END"])))))))))
      refine List.Sublist.append (List.Sublist.refl _) ?_
      refine List.Sublist.append (ite_singleton_sublist _ _) ?_
      refine List.Sublist.append (ite_singleton_sublist _ _) ?_
      refine List.Sublist.append (ite_singleton_sublist _ _) ?_
      refine List.Sublist.append (ite_singleton_sublist _ _) ?_
      refine List.Sublist.append (ite_singleton_sublist _ _) ?_
      refine List.Sublist.append (ite_singleton_sublist _ _) ?_
      refine List.Sublist.append (ite_singleton_sublist _ _) ?_
      exact List.Sublist.append (ite_singleton_sublist _ _) (List.Sublist.refl _)
  · by_cases hv : version = "4.0"
    · refine ⟨["BEGIN:VCARD", "VERSION:4.0",
        "N:" ++ l ++ ";" ++ f ++ ";;;", "FN:" ++ pyStrip (f ++ " " ++ l)]
        ++ optLine (o ≠ "") ("ORG:" ++ o)
        ++ optLine (t ≠ "") ("TITLE:" ++ t)
        ++ optLine (p ≠ "") ("TEL;TYPE=work,voice;VALUE=uri:tel:" ++ p)
        ++ optLine (m ≠ "") ("TEL;TYPE=cell,voice;VALUE=uri:tel:" ++ m)
        ++ optLine (e ≠ "") ("EMAIL:" ++ e)
        ++ optLine (w ≠ "") ("URL:" ++ w)
        ++ (if arf ≠ "" ∨ arl ≠ "" then
              optLine (pyStrip (arf ++ " " ++ arl) ≠ "")
                ("FN;LANGUAGE=ar:" ++ pyStrip (arf ++ " " ++ arl))
            else [])
        ++ optLine (art ≠ "") ("TITLE;LANGUAGE=ar:" ++ art)
        ++ optLine (n ≠ "") ("NOTE:" ++ escapeNotes n), ?_⟩
      simp [vcardLines, hv, List.append_assoc]
    · refine ⟨["BEGIN:VCARD", "VERSION:3.0",
        "N:" ++ l ++ ";" ++ f ++ ";;;", "FN:" ++ pyStrip (f ++ " " ++ l)]
        ++ optLine (o ≠ "") ("ORG:" ++ o)
        ++ optLine (t ≠ "") ("TITLE:" ++ t)
        ++ optLine (p ≠ "") ("TEL;TYPE=WORK,VOICE:" ++ p)
        ++ optLine (m ≠ "") ("TEL;TYPE=CELL,VOICE:" ++ m)
        ++ optLine (e ≠ "") ("EMAIL;TYPE=PREF,INTERNET:" ++ e)
        ++ optLine (w ≠ "") ("URL:" ++ w)
        ++ (let an := optLine (arf ≠ "" ∨ arl ≠ "")
                        (pyStrip ("الاسم: " ++ arf ++ " " ++ arl))
                      ++ optLine (art ≠ "") ("المسمى: " ++ art)
            optLine (an ≠ []) ("NOTE:" ++ pyJoin " | " an))
        ++ optLine (n ≠ "") ("NOTE:" ++ n), ?_⟩
      simp [vcardLines, hv, List.append_assoc]

/-- Claim C6: `build_vcard_core` validates nothing — any non-empty string
supplied as phone, mobile, email or website (well-formed or not) is
included verbatim in the corresponding output line, in both branches.
(The embedding is a total function, matching the fact that the Python
code contains no raise and no validation check on these fields.) -/
theorem vcard_verbatim_no_validation (f l o t p m e w n arf arl art : String) :
    (p ≠ "" → ("TEL;TYPE=work,voice;VALUE=uri:tel:" ++ p) ∈
      vcardLines "4.0" f l o t p m e w n arf arl art) ∧
    (m ≠ "" → ("TEL;TYPE=cell,voice;VALUE=uri:tel:" ++ m) ∈
      vcardLines "4.0" f l o t p m e w n arf arl art) ∧
    (e ≠ "" → ("EMAIL:" ++ e) ∈ vcardLines "4.0" f l o t p m e w n arf arl art) ∧
    (w ≠ "" → ("URL:" ++ w) ∈ vcardLines "4.0" f l o t p m e w n arf arl art) ∧
    (p ≠ "" → ("TEL;TYPE=WORK,VOICE:" ++ p) ∈
      vcardLines "3.0" f l o t p m e w n arf arl art) ∧
    (m ≠ "" → ("TEL;TYPE=CELL,VOICE:" ++ m) ∈
      vcardLines "3.0" f l o t p m e w n arf arl art) ∧
    (e ≠ "" → ("EMAIL;TYPE=PREF,INTERNET:" ++ e) ∈
      vcardLines "3.0" f l o t p m e w n arf arl art) ∧
    (w ≠ "" → ("URL:" ++ w) ∈ vcardLines "3.0" f l o t p m e w n arf arl art) := by
  refine ⟨fun h => ?_, fun h => ?_, fun h => ?_, fun h => ?_,
    fun h => ?_, fun h => ?_, fun h => ?_, fun h => ?_⟩ <;>
    simp [vcardLines, optLine, h]

/-- Witness for C6: malformed phone, email and website values are carried
into the output lines unchanged. -/
theorem vcard_verbatim_no_validation_wit :
    ("EMAIL:" ++ "not an email@@") ∈
      vcardLines "4.0" "" "" "" "" "abc" "" "not an email@@" "::bad url" "" "" "" "" ∧
    ("URL:" ++ "::bad url") ∈
      vcardLines "3.0" "" "" "" "" "abc" "" "not an email@@" "::bad url" "" "" "" "" := by
  constructor
  · exact (vcard_verbatim_no_validation "" "" "" "" "abc" "" "not an email@@"
      "::bad url" "" "" "" "").2.2.1 (by decide)
  · exact (vcard_verbatim_no_validation "" "" "" "" "abc" "" "not an email@@"
      "::bad url" "" "" "" "").2.2.2.2.2.2.2 (by decide)

/-- Claim C7: `short_data_uri` returns the data URI
`data:<mediatype>;base64,<b64>` exactly when its length is at most
`max_len`, and `None` otherwise (and, being a total function, it never
fails). -/
theorem short_data_uri_guard (b : List Nat) (mt : String) (ml : Nat) :
    (("data:" ++ mt ++ ";base64," ++ (⟨b64encode b⟩ : String)).length ≤ ml →
      short_data_uri b mt ml =
        some ("data:" ++ mt ++ ";base64," ++ (⟨b64encode b⟩ : String))) ∧
    (ml < ("data:" ++ mt ++ ";base64," ++ (⟨b64encode b⟩ : String)).length →
      short_data_uri b mt ml = none) := by
  unfold short_data_uri
  constructor
  · intro h
    rw [if_pos h]
  · intro h
    rw [if_neg (by omega)]

/-- Witness for C7: the guard at a concrete payload, under and over the
limit. -/
theorem short_data_uri_guard_wit :
    short_data_uri [1, 2, 3] "audio/mpeg" 80000 =
      some "data:audio/mpeg;base64,AQID" ∧
    short_data_uri [1, 2, 3] "audio/mpeg" 5 = none := by
  constructor
  · exact ((short_data_uri_guard [1, 2, 3] "audio/mpeg" 80000).1
      (by decide)).trans (by decide)
  · exact (short_data_uri_guard [1, 2, 3] "audio/mpeg" 5).2 (by decide)

/-- Claim C9: `sanitize_filename` always returns a non-empty string made
only of `a-z`, `0-9`, `_`, `.`, `-` (falling back to `"file"` when the
filters remove everything), so the batch-mode `or "contact"` fallback is
never taken. -/
theorem sanitize_filename_safe (s : String) :
    sanitize_filename s ≠ "" ∧
    (∀ c ∈ (sanitize_filename s).data, allowedChar c = true) ∧
    ((⟨(collapseWS ((pyStrip s).data.map pyLowerChar)).filter allowedChar⟩ :
        String) = "" → sanitize_filename s = "file") ∧
    (if sanitize_filename s = "" then "contact" else sanitize_filename s) =
      sanitize_filename s := by
  have hmain : sanitize_filename s ≠ "" ∧
      ∀ c ∈ (sanitize_filename s).data, allowedChar c = true := by
    unfold sanitize_filename
    dsimp only
    split
    · refine ⟨by decide, ?_⟩
      intro c hc
      fin_cases hc <;> decide
    · next h =>
      refine ⟨h, ?_⟩
      intro c hc
      exact (List.mem_filter.mp hc).2
  refine ⟨hmain.1, hmain.2, ?_, if_neg hmain.1⟩
  intro h
  unfold sanitize_filename
  dsimp only
  rw [if_pos h]

/-- Witness for C9 at a concrete name needing every cleanup step. -/
theorem sanitize_filename_safe_wit :
    sanitize_filename " My File!! " ≠ "" ∧
    sanitize_filename "@@@" = "file" ∧
    (if sanitize_filename " My File!! " = "" then "contact"
     else sanitize_filename " My File!! ") = sanitize_filename " My File!! " :=
  ⟨(sanitize_filename_safe " My File!! ").1,
   (sanitize_filename_safe "@@@").2.2.1 (by decide),
   (sanitize_filename_safe " My File!! ").2.2.2⟩

/-- Claim C10: in the 4.0 branch the notes field is escaped (backslashes
doubled, newlines turned into the two characters `\` `n`) before the NOTE
line is emitted, so the escaped text contains no newline; the 3.0 branch
appends the notes verbatim, without this escaping. -/
theorem vcard_note_escaping (f l o t p m e w n arf arl art : String)
    (hn : n ≠ "") :
    ("NOTE:" ++ escapeNotes n) ∈ vcardLines "4.0" f l o t p m e w n arf arl art ∧
    (∀ c ∈ (escapeNotes n).data, c ≠ '\n') ∧
    ("NOTE:" ++ n) ∈ vcardLines "3.0" f l o t p m e w n arf arl art := by
  refine ⟨?_, ?_, ?_⟩
  · simp [vcardLines, optLine, hn]
  · intro c hc
    have hc2 : c ∈ (n.data.flatMap escChar1).flatMap escChar2 := hc
    obtain ⟨a, _, ha⟩ := List.mem_flatMap.mp hc2
    unfold escChar2 at ha
    by_cases h : a = '\n'
    · rw [if_pos h] at ha
      rcases List.mem_cons.mp ha with rfl | ha2
      · decide
      · rcases List.mem_singleton.mp ha2 with rfl
        decide
    · rw [if_neg h] at ha
      rcases List.mem_singleton.mp ha with rfl
      exact h
  · simp [vcardLines, optLine, hn]

/-- Witness for C10 at a two-line notes value. -/
theorem vcard_note_escaping_wit :
    ("NOTE:" ++ escapeNotes "a\nb") ∈
      vcardLines "4.0" "" "" "" "" "" "" "" "" "a\nb" "" "" "" ∧
    ("NOTE:" ++ "a\nb") ∈
      vcardLines "3.0" "" "" "" "" "" "" "" "" "a\nb" "" "" "" := by
  have h := vcard_note_escaping "" "" "" "" "" "" "" "" "a\nb" "" "" "" (by decide)
  exact ⟨h.1, h.2.2⟩

/-- Claim C3: the batch loop writes exactly one bundle of three files per
spreadsheet row — `3 * N` archive entries for `N` rows (plus the one
summary file) — and every bundle is a `.vcf`, a `.png` and an `.svg`
under a (never-empty) per-contact folder, whatever the rows contain. -/
theorem batch_bundles (folder : String) (rows : List Row) :
    (rows.flatMap (rowBundle folder)).length = 3 * rows.length ∧
    (batchZipEntries folder rows).length = 3 * rows.length + 1 ∧
    ∀ r ∈ rows, ∃ fn, fn ≠ "" ∧ rowBundle folder r =
      [folder ++ "/" ++ fn ++ "/" ++ fn ++ ".vcf",
       folder ++ "/" ++ fn ++ "/" ++ fn ++ "_qr.png",
       folder ++ "/" ++ fn ++ "/" ++ fn ++ "_qr.svg"] := by
  have hlen : (rows.flatMap (rowBundle folder)).length = 3 * rows.length := by
    induction rows with
    | nil => rfl
    | cons r rs ih =>
      simp only [List.flatMap_cons, List.length_append, ih, List.length_cons]
      simp [rowBundle]
      omega
  refine ⟨hlen, ?_, ?_⟩
  · simp [batchZipEntries, hlen]
  · intro r hr
    refine ⟨rowFname r, ?_, rfl⟩
    unfold rowFname
    dsimp only
    split
    · decide
    · next h => exact h

/-- Witness for C3 on a concrete two-row batch (one of them with empty
names). -/
theorem batch_bundles_wit :
    (([⟨"Ali", "Saud", "", "", "", "", "", "", ""⟩,
       ⟨"", "", "", "", "", "", "", "", ""⟩] :
        List Row).flatMap (rowBundle "B")).length = 3 * 2 ∧
    ∃ fn, fn ≠ "" ∧
      rowBundle "B" (⟨"", "", "", "", "", "", "", "", ""⟩ : Row) =
        ["B" ++ "/" ++ fn ++ "/" ++ fn ++ ".vcf",
         "B" ++ "/" ++ fn ++ "/" ++ fn ++ "_qr.png",
         "B" ++ "/" ++ fn ++ "/" ++ fn ++ "_qr.svg"] := by
  constructor
  · exact (batch_bundles "B" [⟨"Ali", "Saud", "", "", "", "", "", "", ""⟩,
      ⟨"", "", "", "", "", "", "", "", ""⟩]).1
  · exact (batch_bundles "B" [⟨"Ali", "Saud", "", "", "", "", "", "", ""⟩,
      ⟨"", "", "", "", "", "", "", "", ""⟩]).2.2
      ⟨"", "", "", "", "", "", "", "", ""⟩ (by simp)
